import Mathlib

/-!
Shallow embedding of `src/main.go` from fireynis/podcast-transcribe-and-diarize.

The program is a two-stage HTTP orchestration: it transcribes an audio file via
a Whisper endpoint (caching the result in `transcription.txt`), then diarizes
the transcript via a chat-completions endpoint and writes the result to
`diarized.txt`.

The embedding models the external world (filesystem, network) as explicit
inputs: a file is an `Option String` (present with content, or absent), and an
HTTP exchange is an `Option HttpResponse` (a response, or a transport failure).
A response carries its raw body string together with `bodyJson`, the JSON parse
of that body (`none` when the body is not valid JSON); the success paths of the
Go code decode JSON from the body, the error paths read the raw bytes.
Go's permissive `encoding/json` struct decoding is modelled field by field.
-/

namespace PodcastDiarize

/-- Configuration record, from the `Config` struct in main.go.  Timeouts are
kept in seconds as plain naturals; they never influence the modelled control
flow (the embedding does not model real time). -/
structure Config where
  whisperURL : String
  chatCompletionsURL : String
  transcriptionFile : String
  diarizedFile : String
  maxResponseBodySize : Nat
  maxAudioFileSize : Nat
  deriving DecidableEq

/-- The package-level `config` value of main.go. -/
def config : Config :=
  { whisperURL := "https://api.openai.com/v1/audio/transcriptions"
    chatCompletionsURL := "https://api.openai.com/v1/chat/completions"
    transcriptionFile := "transcription.txt"
    diarizedFile := "diarized.txt"
    maxResponseBodySize := 10 * 1024 * 1024
    maxAudioFileSize := 25 * 1024 * 1024 }

/-- JSON values, used to model the decoded bodies of upstream responses. -/
inductive Json where
  | null : Json
  | bool (b : Bool) : Json
  | num (n : Int) : Json
  | str (s : String) : Json
  | arr (xs : List Json) : Json
  | obj (fields : List (String × Json)) : Json

/-- An upstream HTTP response: status code, raw body, and the JSON parse of
the body (`none` when the body is not well-formed JSON). -/
structure HttpResponse where
  status : Nat
  body : String
  bodyJson : Option Json

/-- The response body truncated to the configured bound, as read by
`io.ReadAll(io.LimitReader(resp.Body, config.MaxResponseBodySize))`. -/
def truncatedBody (s : String) : String :=
  String.mk (s.data.take config.maxResponseBodySize)

/-- Error outcomes of `transcribeAudio`, one constructor per `return ""` error
path of the Go function. -/
inductive TranscribeError where
  | statError : TranscribeError
  | sizeError (actual maxSize : Nat) : TranscribeError
  | openError : TranscribeError
  | copyError : TranscribeError
  | upstream (status : Nat) (bodyExcerpt : String) : TranscribeError
  | decodeError : TranscribeError
  | networkError : TranscribeError
  deriving DecidableEq

/-- The Go error message text attached to each `transcribeAudio` error
(the `%v` details of wrapped lower-level errors are elided). -/
def TranscribeError.message : TranscribeError → String
  | .statError => "failed to get file info"
  | .sizeError actual maxSize =>
      "audio file too large: " ++ toString actual ++ " bytes (max: " ++
        toString maxSize ++ " bytes)"
  | .openError => "failed to open audio file"
  | .copyError => "failed to copy file content"
  | .upstream status excerpt =>
      "non-200 response: " ++ toString status ++ ", body: " ++ excerpt
  | .decodeError => "failed to decode response"
  | .networkError => "failed to send request"

/-- Error outcomes of `diarizeTranscript`, one constructor per error path. -/
inductive DiarizeError where
  | networkError : DiarizeError
  | upstream (status : Nat) (bodyExcerpt : String) : DiarizeError
  | decodeError : DiarizeError
  | emptyResult : DiarizeError
  deriving DecidableEq

/-- The Go error message text attached to each `diarizeTranscript` error. -/
def DiarizeError.message : DiarizeError → String
  | .networkError => "failed to send chat completion request"
  | .upstream status excerpt =>
      "non-200 response from chat completion: " ++ toString status ++
        ", body: " ++ excerpt
  | .decodeError => "failed to decode chat completion response"
  | .emptyResult => "no choices returned from chat completion"

/-- Go `encoding/json` unmarshalling of a JSON value into a `string` field:
a JSON string sets the field, JSON `null` leaves the zero value, anything
else is an `UnmarshalTypeError`. -/
def decodeString : Json → Except Unit String
  | .str s => .ok s
  | .null => .ok ""
  | _ => .error ()

/-- ASCII lowercasing of a string, modelling the case folding Go's decoder
applies when matching JSON object keys against struct field tags. -/
def asciiLower (s : String) : String :=
  String.mk (s.data.map Char.toLower)

/-- Walk the key/value pairs of a JSON object the way Go's decoder does for a
struct with a single tagged field `k` (given lowercase): keys are matched
case-insensitively, unknown keys are ignored, a matching key runs the value
decoder `d` (later duplicates overwrite earlier ones), and a value decoder
failure aborts the whole decode. -/
def decodeFieldAux (k : String) (d : Json → Except Unit α) :
    List (String × Json) → α → Except Unit α
  | [], acc => .ok acc
  | (key, v) :: rest, acc =>
    if asciiLower key = k then
      match d v with
      | .ok a => decodeFieldAux k d rest a
      | .error e => .error e
    else
      decodeFieldAux k d rest acc

/-- Go `encoding/json` unmarshalling of a JSON value into a struct with a
single field tagged `k` (value decoded by `d`, zero value `v0`): `null`
leaves the zero value, an object is scanned with `decodeFieldAux`, anything
else is a type error. -/
def decodeField (k : String) (d : Json → Except Unit α) (v0 : α) :
    Json → Except Unit α
  | .null => .ok v0
  | .obj fields => decodeFieldAux k d fields v0
  | _ => .error ()

/-- Decoding of the transcription success body into
`struct { Text string `json:"text"` }` (main.go lines 172-178). -/
def decodeTranscriptionBody : Json → Except Unit String :=
  decodeField "text" decodeString ""

/-- Go `encoding/json` unmarshalling into a slice: `null` gives the empty
slice, an array decodes elementwise, anything else is a type error. -/
def decodeList (d : Json → Except Unit α) : Json → Except Unit (List α)
  | .null => .ok []
  | .arr xs => xs.mapM d
  | _ => .error ()

/-- Decoding of one element of `choices`:
`struct { Message struct { Content string `json:"content"` } `json:"message"` }`. -/
def decodeChoice : Json → Except Unit String :=
  decodeField "message" (decodeField "content" decodeString "") ""

/-- Decoding of the chat-completion success body into the anonymous struct of
main.go lines 226-232; the result is the list of message contents of the
decoded choices. -/
def decodeChatBody : Json → Except Unit (List String) :=
  decodeField "choices" (decodeList decodeChoice) []

/-- Result of `os.Stat`: the size reported for the audio file. -/
structure FileInfo where
  size : Nat
  deriving DecidableEq

/-- The external world as seen by `transcribeAudio`: the audio file's stat
result (`none` = stat error), whether `os.Open` succeeds, whether reading the
file content (`io.Copy`) succeeds, and the transcription endpoint's response
(`none` = transport error).  Request construction against the in-memory
multipart buffer and the constant URL cannot fail and is not given a failure
knob. -/
structure TranscribeEnv where
  statResult : Option FileInfo
  openOk : Bool
  copyOk : Bool
  response : Option HttpResponse

/-- Outcome of `transcribeAudio`: the returned value or error, plus ghost
flags recording how far the function progressed — whether the audio file was
opened, whether the multipart request was built, and whether the HTTP request
was issued to the network. -/
structure TranscribeOutcome where
  result : Except TranscribeError String
  fileOpened : Bool
  requestBuilt : Bool
  requestIssued : Bool

/-- Model of `transcribeAudio` (main.go lines 112-179): stat the audio file, reject it
if it exceeds `config.maxAudioFileSize`, otherwise open and read it, build the
multipart request, POST it; a non-200 status yields an upstream error carrying
the truncated body, a 200 status decodes the body as `{ text }`. -/
def transcribeAudio (env : TranscribeEnv) : TranscribeOutcome :=
  match env.statResult with
  | none => ⟨.error .statError, false, false, false⟩
  | some fileInfo =>
    if fileInfo.size > config.maxAudioFileSize then
      ⟨.error (.sizeError fileInfo.size config.maxAudioFileSize), false, false, false⟩
    else if !env.openOk then
      ⟨.error .openError, false, false, false⟩
    else if !env.copyOk then
      ⟨.error .copyError, true, false, false⟩
    else
      match env.response with
      | none => ⟨.error .networkError, true, true, true⟩
      | some resp =>
        if resp.status ≠ 200 then
          ⟨.error (.upstream resp.status (truncatedBody resp.body)), true, true, true⟩
        else
          match resp.bodyJson with
          | none => ⟨.error .decodeError, true, true, true⟩
          | some j =>
            match decodeTranscriptionBody j with
            | .error _ => ⟨.error .decodeError, true, true, true⟩
            | .ok text => ⟨.ok text, true, true, true⟩

/-- Leading part of the diarization prompt format string, up to the spot where
`%d` inserts the speaker count. -/
def promptHead : String :=
  "You are an expert in speaker diarization.\nGiven the following transcript of a podcast and knowing there are "

/-- Middle part of the diarization prompt format string, between the speaker
count and the spot where `%s` inserts the transcript. -/
def promptMiddle : String :=
  " speakers, please insert clear breaks and label each segment with the appropriate speaker (e.g., \"Speaker 1:\", \"Speaker 2:\", etc.).\n\nTranscript:\n"

/-- Trailing part of the diarization prompt format string. -/
def promptTail : String :=
  "\n\nReturn the diarized transcript."

/-- The `fmt.Sprintf` prompt of `diarizeTranscript` (main.go lines 184-190):
the speaker count is formatted in decimal (`%d`) and the transcript is spliced
in verbatim (`%s`). -/
def diarizePrompt (numSpeakers : Int) (transcript : String) : String :=
  promptHead ++ toString numSpeakers ++ promptMiddle ++ transcript ++ promptTail

/-- One chat message of the request payload. -/
structure ChatMessage where
  role : String
  content : String
  deriving DecidableEq

/-- The JSON request payload of `diarizeTranscript` (main.go lines 192-197);
`max_tokens` is intentionally omitted in the source.  The temperature 0.3 is
modelled as the rational 3/10. -/
structure ChatPayload where
  model : String
  messages : List ChatMessage
  temperature : ℚ
  deriving DecidableEq

/-- The payload built for a given prompt. -/
def chatPayload (prompt : String) : ChatPayload :=
  { model := "gpt-4o"
    messages := [{ role := "user", content := prompt }]
    temperature := 3 / 10 }

/-- The external world as seen by `diarizeTranscript`: the chat-completions
endpoint's response (`none` = transport error).  Marshalling the payload and
building the request against the constant URL cannot fail. -/
structure DiarizeEnv where
  response : Option HttpResponse

/-- Outcome of `diarizeTranscript`: the returned value or error, plus ghost
fields recording that the HTTP request was issued and which payload was sent. -/
structure DiarizeOutcome where
  result : Except DiarizeError String
  requestIssued : Bool
  payloadSent : Option ChatPayload

/-- Model of `diarizeTranscript` (main.go lines 183-241): build the prompt and
payload, POST them; a non-200 status yields an upstream error carrying the
truncated body, a 200 status decodes the body as `{ choices }` and returns the
content of the first choice, failing when the list is empty.  The speaker
count is never inspected, only formatted into the prompt. -/
def diarizeTranscript (env : DiarizeEnv) (transcript : String)
    (numSpeakers : Int) : DiarizeOutcome :=
  let prompt := diarizePrompt numSpeakers transcript
  let payload := chatPayload prompt
  match env.response with
  | none => ⟨.error .networkError, true, some payload⟩
  | some resp =>
    if resp.status ≠ 200 then
      ⟨.error (.upstream resp.status (truncatedBody resp.body)), true, some payload⟩
    else
      match resp.bodyJson with
      | none => ⟨.error .decodeError, true, some payload⟩
      | some j =>
        match decodeChatBody j with
        | .error _ => ⟨.error .decodeError, true, some payload⟩
        | .ok [] => ⟨.error .emptyResult, true, some payload⟩
        | .ok (c :: _) => ⟨.ok c, true, some payload⟩

/-- The external world as seen by one run of `main`: CLI flags, environment,
the two local files (content when present), the audio file's stat/open/read
behaviour, the two endpoints' responses, and whether the two `os.WriteFile`
calls succeed. -/
structure World where
  audioPath : String
  numSpeakers : Int
  apiKey : String
  transcriptionFile : Option String
  diarizedFile : Option String
  cacheReadOk : Bool
  audioStat : Option FileInfo
  audioOpenOk : Bool
  audioCopyOk : Bool
  transcriptionResponse : Option HttpResponse
  diarizationResponse : Option HttpResponse
  cacheWriteOk : Bool
  diarizedWriteOk : Bool

/-- Outcome of one run of `main`: the process exit code, the final contents of
the two files, how many requests each endpoint received, and (ghost) the
transcript value passed to `diarizeTranscript`, `none` when diarization was
never reached. -/
structure RunResult where
  exitCode : Nat
  transcriptionFile : Option String
  diarizedFile : Option String
  transcriptionRequests : Nat
  diarizationRequests : Nat
  transcriptUsed : Option String

/-- The transcription environment a run presents to `transcribeAudio`. -/
def transcribeEnvOf (w : World) : TranscribeEnv :=
  ⟨w.audioStat, w.audioOpenOk, w.audioCopyOk, w.transcriptionResponse⟩

/-- Number of network requests a `transcribeAudio` call issued. -/
def requestCount (t : TranscribeOutcome) : Nat :=
  if t.requestIssued then 1 else 0

/-- The header line prepended to `diarized.txt` (main.go line 103). -/
def diarizedHeader : String := "=== Diarized Transcript ===\n"

/-- The diarization stage of `main` (lines 93-108): call `diarizeTranscript`
on the transcript, and on success write header + text + newline to
`diarized.txt`.  `cacheAfter` is the content of `transcription.txt` after the
cache stage; a failed `os.WriteFile` of `diarized.txt` is modelled as leaving
the file unchanged. -/
def diarizeStage (w : World) (transcript : String) (cacheAfter : Option String)
    (tRequests : Nat) : RunResult :=
  let d := diarizeTranscript ⟨w.diarizationResponse⟩ transcript w.numSpeakers
  match d.result with
  | .error _ =>
      ⟨1, cacheAfter, w.diarizedFile, tRequests, 1, some transcript⟩
  | .ok text =>
      if w.diarizedWriteOk then
        ⟨0, cacheAfter, some (diarizedHeader ++ text ++ "\n"), tRequests, 1,
          some transcript⟩
      else
        ⟨1, cacheAfter, w.diarizedFile, tRequests, 1, some transcript⟩

/-- Model of `main` (main.go lines 45-109): validate the CLI flag and the API
key; if `transcription.txt` exists (its content is `some`), read it and use
its exact content as the transcript; otherwise call `transcribeAudio` and
write the result to `transcription.txt`; then diarize and write
`diarized.txt`.  Any failure exits with code 1.  A failed `os.WriteFile` of
the cache is modelled as leaving the file absent. -/
def runMain (w : World) : RunResult :=
  if w.audioPath = "" then
    ⟨1, w.transcriptionFile, w.diarizedFile, 0, 0, none⟩
  else if w.apiKey = "" then
    ⟨1, w.transcriptionFile, w.diarizedFile, 0, 0, none⟩
  else
    match w.transcriptionFile with
    | some data =>
      if w.cacheReadOk then
        diarizeStage w data (some data) 0
      else
        ⟨1, some data, w.diarizedFile, 0, 0, none⟩
    | none =>
      let t := transcribeAudio (transcribeEnvOf w)
      match t.result with
      | .error _ =>
          ⟨1, none, w.diarizedFile, requestCount t, 0, none⟩
      | .ok transcript =>
        if w.cacheWriteOk then
          diarizeStage w transcript (some transcript) (requestCount t)
        else
          ⟨1, none, w.diarizedFile, requestCount t, 0, none⟩

/-- The content of `transcription.txt` right after the cache stage of a run
that got past it: the pre-existing content when the file was present, the
freshly written transcript otherwise (`none` when transcription failed). -/
def transcriptAfterCacheStage (w : World) : Option String :=
  match w.transcriptionFile with
  | some data => some data
  | none =>
    match (transcribeAudio (transcribeEnvOf w)).result with
    | .ok transcript => some transcript
    | .error _ => none

/-- Whether a run gets past validation and the cache stage and reaches the
diarization call. -/
def reachesDiarization (w : World) : Prop :=
  w.audioPath ≠ "" ∧ w.apiKey ≠ "" ∧
    match w.transcriptionFile with
    | some _ => w.cacheReadOk = true
    | none =>
      (∃ transcript,
        (transcribeAudio (transcribeEnvOf w)).result = .ok transcript) ∧
        w.cacheWriteOk = true

/-! Client-level lemmas. -/

/-- An oversized stat result stops `transcribeAudio` at the size check. -/
lemma transcribeAudio_size (env : TranscribeEnv) (fi : FileInfo)
    (hstat : env.statResult = some fi)
    (hbig : fi.size > config.maxAudioFileSize) :
    transcribeAudio env =
      ⟨.error (.sizeError fi.size config.maxAudioFileSize), false, false, false⟩ := by
  simp [transcribeAudio, hstat, hbig]

/-- A non-200 response makes `transcribeAudio` fail with the upstream error. -/
lemma transcribeAudio_upstream (env : TranscribeEnv) (fi : FileInfo)
    (resp : HttpResponse)
    (hstat : env.statResult = some fi)
    (hsize : ¬ fi.size > config.maxAudioFileSize)
    (hopen : env.openOk = true) (hcopy : env.copyOk = true)
    (hresp : env.response = some resp) (hst : resp.status ≠ 200) :
    transcribeAudio env =
      ⟨.error (.upstream resp.status (truncatedBody resp.body)), true, true, true⟩ := by
  simp [transcribeAudio, hstat, hsize, hopen, hcopy, hresp, hst]

/-- A 200 response with a decodable body makes `transcribeAudio` return the
decoded text. -/
lemma transcribeAudio_ok (env : TranscribeEnv) (fi : FileInfo)
    (resp : HttpResponse) (j : Json) (text : String)
    (hstat : env.statResult = some fi)
    (hsize : ¬ fi.size > config.maxAudioFileSize)
    (hopen : env.openOk = true) (hcopy : env.copyOk = true)
    (hresp : env.response = some resp) (hst : resp.status = 200)
    (hjson : resp.bodyJson = some j)
    (hdec : decodeTranscriptionBody j = .ok text) :
    transcribeAudio env = ⟨.ok text, true, true, true⟩ := by
  simp [transcribeAudio, hstat, hsize, hopen, hcopy, hresp, hst, hjson, hdec]

/-- A non-200 response makes `diarizeTranscript` fail with the upstream
error. -/
lemma diarizeTranscript_upstream (env : DiarizeEnv) (resp : HttpResponse)
    (t : String) (n : Int)
    (hresp : env.response = some resp) (hst : resp.status ≠ 200) :
    diarizeTranscript env t n =
      ⟨.error (.upstream resp.status (truncatedBody resp.body)), true,
        some (chatPayload (diarizePrompt n t))⟩ := by
  simp [diarizeTranscript, hresp, hst]

/-- A 200 response whose body decodes to a non-empty choices list makes
`diarizeTranscript` return the first content. -/
lemma diarizeTranscript_ok (env : DiarizeEnv) (resp : HttpResponse) (j : Json)
    (t : String) (n : Int) (c : String) (rest : List String)
    (hresp : env.response = some resp) (hst : resp.status = 200)
    (hjson : resp.bodyJson = some j)
    (hdec : decodeChatBody j = .ok (c :: rest)) :
    diarizeTranscript env t n =
      ⟨.ok c, true, some (chatPayload (diarizePrompt n t))⟩ := by
  simp [diarizeTranscript, hresp, hst, hjson, hdec]

/-- A 200 response whose body decodes to an empty choices list makes
`diarizeTranscript` fail with the empty-result error. -/
lemma diarizeTranscript_empty (env : DiarizeEnv) (resp : HttpResponse)
    (j : Json) (t : String) (n : Int)
    (hresp : env.response = some resp) (hst : resp.status = 200)
    (hjson : resp.bodyJson = some j)
    (hdec : decodeChatBody j = .ok []) :
    diarizeTranscript env t n =
      ⟨.error .emptyResult, true, some (chatPayload (diarizePrompt n t))⟩ := by
  simp [diarizeTranscript, hresp, hst, hjson, hdec]

/-- The truncated body never exceeds the configured bound. -/
lemma truncatedBody_length_le (s : String) :
    (truncatedBody s).length ≤ config.maxResponseBodySize := by
  show (s.data.take config.maxResponseBodySize).length ≤ config.maxResponseBodySize
  rw [List.length_take]
  exact min_le_left _ _

/-- A status outside the 2xx range is in particular not 200. -/
lemma ne_200_of_not_2xx {s : Nat} (h : ¬ (200 ≤ s ∧ s < 300)) : s ≠ 200 := by
  intro he
  exact h (by omega)

/-- C2: when the stat-reported size of the audio file exceeds the configured
25 MiB maximum, `transcribeAudio` returns the size-limit error carrying the
actual and maximum sizes, without opening the file, building the request, or
issuing any network call. -/
theorem claim_C2 (env : TranscribeEnv) (fi : FileInfo)
    (hstat : env.statResult = some fi)
    (hbig : fi.size > config.maxAudioFileSize) :
    (transcribeAudio env).result =
        .error (.sizeError fi.size config.maxAudioFileSize) ∧
      (transcribeAudio env).fileOpened = false ∧
      (transcribeAudio env).requestBuilt = false ∧
      (transcribeAudio env).requestIssued = false := by
  rw [transcribeAudio_size env fi hstat hbig]
  exact ⟨rfl, rfl, rfl, rfl⟩

/-- Witness for C2 at a 30 MiB stat result. -/
theorem claim_C2_witness :
    (transcribeAudio ⟨some ⟨30 * 1024 * 1024⟩, true, true, none⟩).result =
        .error (.sizeError (30 * 1024 * 1024) config.maxAudioFileSize) ∧
      (transcribeAudio ⟨some ⟨30 * 1024 * 1024⟩, true, true, none⟩).fileOpened = false ∧
      (transcribeAudio ⟨some ⟨30 * 1024 * 1024⟩, true, true, none⟩).requestBuilt = false ∧
      (transcribeAudio ⟨some ⟨30 * 1024 * 1024⟩, true, true, none⟩).requestIssued = false :=
  claim_C2 ⟨some ⟨30 * 1024 * 1024⟩, true, true, none⟩ ⟨30 * 1024 * 1024⟩ rfl
    (by decide)

/-- C3: on every non-2xx upstream response, both `transcribeAudio` and
`diarizeTranscript` fail with an error carrying the original status code and
a body excerpt whose length never exceeds the configured 10 MiB bound. -/
theorem claim_C3 (env : TranscribeEnv) (fi : FileInfo) (resp : HttpResponse)
    (denv : DiarizeEnv) (dresp : HttpResponse) (t : String) (n : Int)
    (hstat : env.statResult = some fi)
    (hsize : ¬ fi.size > config.maxAudioFileSize)
    (hopen : env.openOk = true) (hcopy : env.copyOk = true)
    (hresp : env.response = some resp)
    (hdresp : denv.response = some dresp)
    (h1 : ¬ (200 ≤ resp.status ∧ resp.status < 300))
    (h2 : ¬ (200 ≤ dresp.status ∧ dresp.status < 300)) :
    (transcribeAudio env).result =
        .error (.upstream resp.status (truncatedBody resp.body)) ∧
      (diarizeTranscript denv t n).result =
        .error (.upstream dresp.status (truncatedBody dresp.body)) ∧
      (truncatedBody resp.body).length ≤ config.maxResponseBodySize ∧
      (truncatedBody dresp.body).length ≤ config.maxResponseBodySize := by
  rw [transcribeAudio_upstream env fi resp hstat hsize hopen hcopy hresp
      (ne_200_of_not_2xx h1),
    diarizeTranscript_upstream denv dresp t n hdresp (ne_200_of_not_2xx h2)]
  exact ⟨rfl, rfl, truncatedBody_length_le _, truncatedBody_length_le _⟩

/-- Witness for C3 at a 404 transcription response and a 500 diarization
response. -/
theorem claim_C3_witness :
    (transcribeAudio ⟨some ⟨5⟩, true, true, some ⟨404, "nope", none⟩⟩).result =
        .error (.upstream 404 (truncatedBody "nope")) ∧
      (diarizeTranscript ⟨some ⟨500, "boom", none⟩⟩ "t" 2).result =
        .error (.upstream 500 (truncatedBody "boom")) ∧
      (truncatedBody "nope").length ≤ config.maxResponseBodySize ∧
      (truncatedBody "boom").length ≤ config.maxResponseBodySize :=
  claim_C3 ⟨some ⟨5⟩, true, true, some ⟨404, "nope", none⟩⟩ ⟨5⟩
    ⟨404, "nope", none⟩ ⟨some ⟨500, "boom", none⟩⟩ ⟨500, "boom", none⟩ "t" 2
    rfl (by decide) rfl rfl rfl rfl (by decide) (by decide)

/-- C8: `diarizeTranscript` never rejects the speaker count: for every
integer, including zero and negative values, it builds the prompt with the
decimal rendering of the count and the full transcript spliced in verbatim,
and issues the request. -/
theorem claim_C8 (env : DiarizeEnv) (t : String) (n : Int) :
    (diarizeTranscript env t n).requestIssued = true ∧
      (diarizeTranscript env t n).payloadSent =
        some (chatPayload
          (promptHead ++ toString n ++ promptMiddle ++ t ++ promptTail)) := by
  cases henv : env.response with
  | none => simp [diarizeTranscript, henv, diarizePrompt]
  | some resp =>
    by_cases hst : resp.status = 200
    · cases hjson : resp.bodyJson with
      | none => simp [diarizeTranscript, henv, hst, hjson, diarizePrompt]
      | some j =>
        cases hdec : decodeChatBody j with
        | error e => simp [diarizeTranscript, henv, hst, hjson, hdec, diarizePrompt]
        | ok cs =>
          cases cs with
          | nil => simp [diarizeTranscript, henv, hst, hjson, hdec, diarizePrompt]
          | cons c rest => simp [diarizeTranscript, henv, hst, hjson, hdec, diarizePrompt]
    · simp [diarizeTranscript, henv, hst, diarizePrompt]

/-- C9: both clients treat 200 as the only success status: any other status,
other 2xx codes included, takes the upstream-error path and never decodes the
body as a success payload. -/
theorem claim_C9 (env : TranscribeEnv) (fi : FileInfo) (resp : HttpResponse)
    (denv : DiarizeEnv) (dresp : HttpResponse) (t : String) (n : Int)
    (hstat : env.statResult = some fi)
    (hsize : ¬ fi.size > config.maxAudioFileSize)
    (hopen : env.openOk = true) (hcopy : env.copyOk = true)
    (hresp : env.response = some resp)
    (hdresp : denv.response = some dresp)
    (h1 : resp.status ≠ 200) (h2 : dresp.status ≠ 200) :
    (transcribeAudio env).result =
        .error (.upstream resp.status (truncatedBody resp.body)) ∧
      (diarizeTranscript denv t n).result =
        .error (.upstream dresp.status (truncatedBody dresp.body)) := by
  rw [transcribeAudio_upstream env fi resp hstat hsize hopen hcopy hresp h1,
    diarizeTranscript_upstream denv dresp t n hdresp h2]
  exact ⟨rfl, rfl⟩

/-- Witness for C9 at the 2xx statuses 201 and 204, with bodies that would
decode fine as success payloads. -/
theorem claim_C9_witness :
    ((transcribeAudio
        ⟨some ⟨5⟩, true, true,
          some ⟨201, "", some (.obj [("text", .str "hi")])⟩⟩).result =
      .error (.upstream 201 (truncatedBody "")) ∧
      (diarizeTranscript ⟨some ⟨204, "", some .null⟩⟩ "t" 2).result =
        .error (.upstream 204 (truncatedBody ""))) ∧
    ((transcribeAudio ⟨some ⟨5⟩, true, true, some ⟨204, "", some .null⟩⟩).result =
      .error (.upstream 204 (truncatedBody "")) ∧
      (diarizeTranscript
          ⟨some ⟨201, "", some (.obj [("choices", .arr [])])⟩⟩ "t" 2).result =
        .error (.upstream 201 (truncatedBody ""))) :=
  ⟨claim_C9 ⟨some ⟨5⟩, true, true,
      some ⟨201, "", some (.obj [("text", .str "hi")])⟩⟩ ⟨5⟩
      ⟨201, "", some (.obj [("text", .str "hi")])⟩
      ⟨some ⟨204, "", some .null⟩⟩ ⟨204, "", some .null⟩ "t" 2
      rfl (by decide) rfl rfl rfl rfl (by decide) (by decide),
    claim_C9 ⟨some ⟨5⟩, true, true, some ⟨204, "", some .null⟩⟩ ⟨5⟩
      ⟨204, "", some .null⟩
      ⟨some ⟨201, "", some (.obj [("choices", .arr [])])⟩⟩
      ⟨201, "", some (.obj [("choices", .arr [])])⟩ "t" 2
      rfl (by decide) rfl rfl rfl rfl (by decide) (by decide)⟩

/-! Permissive-decoding lemmas. -/

/-- Scanning an object whose keys never match `k` leaves the accumulator. -/
lemma decodeFieldAux_nomatch {α : Type} (k : String) (d : Json → Except Unit α)
    (l : List (String × Json)) (acc : α)
    (h : ∀ kv ∈ l, asciiLower kv.1 ≠ k) :
    decodeFieldAux k d l acc = .ok acc := by
  induction l generalizing acc with
  | nil => rfl
  | cons kv rest ih =>
    obtain ⟨key, v⟩ := kv
    have hk : asciiLower key ≠ k := h (key, v) (List.mem_cons_self _ _)
    simp only [decodeFieldAux, if_neg hk]
    exact ih acc (fun kv hkv => h kv (List.mem_cons_of_mem _ hkv))

/-- Scanning an object with exactly one matching key returns that key's
decoded value, ignoring all the unknown keys around it. -/
lemma decodeFieldAux_found {α : Type} (k : String) (d : Json → Except Unit α)
    (pre post : List (String × Json)) (key : String) (v : Json) (acc a : α)
    (hpre : ∀ kv ∈ pre, asciiLower kv.1 ≠ k)
    (hkey : asciiLower key = k) (hv : d v = .ok a)
    (hpost : ∀ kv ∈ post, asciiLower kv.1 ≠ k) :
    decodeFieldAux k d (pre ++ (key, v) :: post) acc = .ok a := by
  induction pre generalizing acc with
  | nil =>
    simp only [List.nil_append, decodeFieldAux, if_pos hkey, hv]
    exact decodeFieldAux_nomatch k d post a hpost
  | cons kv rest ih =>
    obtain ⟨key', v'⟩ := kv
    have hk : asciiLower key' ≠ k := hpre (key', v') (List.mem_cons_self _ _)
    simp only [List.cons_append, decodeFieldAux, if_neg hk]
    exact ih acc (fun kv hkv => hpre kv (List.mem_cons_of_mem _ hkv))

/-- C4: on a 200 transcription response, `transcribeAudio` returns exactly
the `text` field of the JSON object, ignoring unknown fields, and an object
with no `text` field yields the empty string rather than an error. -/
theorem claim_C4 (env : TranscribeEnv) (fi : FileInfo) (resp : HttpResponse)
    (fields : List (String × Json))
    (hstat : env.statResult = some fi)
    (hsize : ¬ fi.size > config.maxAudioFileSize)
    (hopen : env.openOk = true) (hcopy : env.copyOk = true)
    (hresp : env.response = some resp) (hst : resp.status = 200)
    (hjson : resp.bodyJson = some (Json.obj fields)) :
    (∀ pre post s, fields = pre ++ ("text", Json.str s) :: post →
      (∀ kv ∈ pre, asciiLower kv.1 ≠ "text") →
      (∀ kv ∈ post, asciiLower kv.1 ≠ "text") →
      (transcribeAudio env).result = .ok s) ∧
    ((∀ kv ∈ fields, asciiLower kv.1 ≠ "text") →
      (transcribeAudio env).result = .ok "") := by
  constructor
  · intro pre post s hfields hpre hpost
    have hdec : decodeTranscriptionBody (Json.obj fields) = .ok s := by
      rw [hfields]
      exact decodeFieldAux_found "text" decodeString pre post "text"
        (Json.str s) "" s hpre rfl rfl hpost
    rw [transcribeAudio_ok env fi resp (Json.obj fields) s hstat hsize hopen
      hcopy hresp hst hjson hdec]
  · intro hmiss
    have hdec : decodeTranscriptionBody (Json.obj fields) = .ok "" :=
      decodeFieldAux_nomatch "text" decodeString fields "" hmiss
    rw [transcribeAudio_ok env fi resp (Json.obj fields) "" hstat hsize hopen
      hcopy hresp hst hjson hdec]

/-- Witness for C4: an object with unknown fields around `text` yields the
`text` value; an object without `text` yields the empty string. -/
theorem claim_C4_witness :
    (transcribeAudio
        ⟨some ⟨5⟩, true, true,
          some ⟨200, "",
            some (.obj [("foo", .num 1), ("text", .str "hello world"),
              ("bar", .null)])⟩⟩).result = .ok "hello world" ∧
    (transcribeAudio
        ⟨some ⟨5⟩, true, true,
          some ⟨200, "", some (.obj [("other", .str "x")])⟩⟩).result = .ok "" :=
  ⟨(claim_C4 ⟨some ⟨5⟩, true, true,
      some ⟨200, "",
        some (.obj [("foo", .num 1), ("text", .str "hello world"),
          ("bar", .null)])⟩⟩ ⟨5⟩
      ⟨200, "",
        some (.obj [("foo", .num 1), ("text", .str "hello world"),
          ("bar", .null)])⟩
      [("foo", .num 1), ("text", .str "hello world"), ("bar", .null)]
      rfl (by decide) rfl rfl rfl rfl rfl).1
      [("foo", .num 1)] [("bar", .null)] "hello world" rfl
      (by decide) (by decide),
    (claim_C4 ⟨some ⟨5⟩, true, true,
      some ⟨200, "", some (.obj [("other", .str "x")])⟩⟩ ⟨5⟩
      ⟨200, "", some (.obj [("other", .str "x")])⟩ [("other", .str "x")]
      rfl (by decide) rfl rfl rfl rfl rfl).2 (by decide)⟩

/-- C5: on a 200 diarization response, `diarizeTranscript` returns exactly
the first decoded choice's message content when the decoded choices list is
non-empty, and fails with the empty-result error when it is empty. -/
theorem claim_C5 (denv : DiarizeEnv) (resp : HttpResponse) (j : Json)
    (cs : List String) (t : String) (n : Int)
    (hresp : denv.response = some resp) (hst : resp.status = 200)
    (hjson : resp.bodyJson = some j) (hdec : decodeChatBody j = .ok cs) :
    (cs = [] → (diarizeTranscript denv t n).result = .error .emptyResult) ∧
    (∀ c rest, cs = c :: rest → (diarizeTranscript denv t n).result = .ok c) := by
  constructor
  · intro hnil
    rw [hnil] at hdec
    rw [diarizeTranscript_empty denv resp j t n hresp hst hjson hdec]
  · intro c rest hcons
    rw [hcons] at hdec
    rw [diarizeTranscript_ok denv resp j t n c rest hresp hst hjson hdec]

/-- Witness for C5: one response with a single choice, one with an empty
choices list. -/
theorem claim_C5_witness :
    (diarizeTranscript
        ⟨some ⟨200, "",
          some (.obj [("choices",
            .arr [.obj [("message",
              .obj [("content", .str "Speaker 1: hi")])]])])⟩⟩ "t" 2).result =
      .ok "Speaker 1: hi" ∧
    (diarizeTranscript
        ⟨some ⟨200, "", some (.obj [("choices", .arr [])])⟩⟩ "t" 2).result =
      .error .emptyResult :=
  ⟨(claim_C5
      ⟨some ⟨200, "",
        some (.obj [("choices",
          .arr [.obj [("message",
            .obj [("content", .str "Speaker 1: hi")])]])])⟩⟩
      ⟨200, "",
        some (.obj [("choices",
          .arr [.obj [("message",
            .obj [("content", .str "Speaker 1: hi")])]])])⟩
      (.obj [("choices",
        .arr [.obj [("message", .obj [("content", .str "Speaker 1: hi")])]])])
      ["Speaker 1: hi"] "t" 2 rfl rfl rfl rfl).2 "Speaker 1: hi" [] rfl,
    (claim_C5 ⟨some ⟨200, "", some (.obj [("choices", .arr [])])⟩⟩
      ⟨200, "", some (.obj [("choices", .arr [])])⟩
      (.obj [("choices", .arr [])]) [] "t" 2 rfl rfl rfl rfl).1 rfl⟩

/-! Orchestrator lemmas. -/

/-- The diarization stage keeps the cache-stage file content untouched. -/
lemma diarizeStage_cacheAfter (w : World) (t : String) (a : Option String)
    (n : Nat) : (diarizeStage w t a n).transcriptionFile = a := by
  simp only [diarizeStage]
  cases (diarizeTranscript ⟨w.diarizationResponse⟩ t w.numSpeakers).result with
  | error e => rfl
  | ok c =>
    dsimp only
    split <;> rfl

/-- The diarization stage issues no transcription request. -/
lemma diarizeStage_tRequests (w : World) (t : String) (a : Option String)
    (n : Nat) : (diarizeStage w t a n).transcriptionRequests = n := by
  simp only [diarizeStage]
  cases (diarizeTranscript ⟨w.diarizationResponse⟩ t w.numSpeakers).result with
  | error e => rfl
  | ok c =>
    dsimp only
    split <;> rfl

/-- The diarization stage passes exactly its transcript argument to
`diarizeTranscript`. -/
lemma diarizeStage_used (w : World) (t : String) (a : Option String)
    (n : Nat) : (diarizeStage w t a n).transcriptUsed = some t := by
  simp only [diarizeStage]
  cases (diarizeTranscript ⟨w.diarizationResponse⟩ t w.numSpeakers).result with
  | error e => rfl
  | ok c =>
    dsimp only
    split <;> rfl

/-- A failing diarization call makes the stage exit with code 1, leaving both
files as they were after the cache stage. -/
lemma diarizeStage_err (w : World) (t : String) (a : Option String) (n : Nat)
    (e : DiarizeError)
    (h : (diarizeTranscript ⟨w.diarizationResponse⟩ t w.numSpeakers).result =
      .error e) :
    diarizeStage w t a n = ⟨1, a, w.diarizedFile, n, 1, some t⟩ := by
  simp only [diarizeStage, h]

/-- A successful diarization call makes the stage write the diarized file and
exit with code 0. -/
lemma diarizeStage_success (w : World) (t : String) (a : Option String)
    (n : Nat) (c : String)
    (h : (diarizeTranscript ⟨w.diarizationResponse⟩ t w.numSpeakers).result =
      .ok c)
    (hwrite : w.diarizedWriteOk = true) :
    diarizeStage w t a n =
      ⟨0, a, some (diarizedHeader ++ c ++ "\n"), n, 1, some t⟩ := by
  simp only [diarizeStage, h, hwrite, if_true]

/-- With a present cache, a validated run is the diarization stage on the
cache content, with zero transcription requests. -/
lemma runMain_cached (w : World) (data : String)
    (hpath : w.audioPath ≠ "") (hkey : w.apiKey ≠ "")
    (hfile : w.transcriptionFile = some data) (hread : w.cacheReadOk = true) :
    runMain w = diarizeStage w data (some data) 0 := by
  simp [runMain, hpath, hkey, hfile, hread]

/-- With no cache and a successful transcription, a validated run is the
diarization stage on the fresh transcript. -/
lemma runMain_fresh (w : World) (tr : String)
    (hpath : w.audioPath ≠ "") (hkey : w.apiKey ≠ "")
    (hnone : w.transcriptionFile = none)
    (hok : (transcribeAudio (transcribeEnvOf w)).result = .ok tr)
    (hwrite : w.cacheWriteOk = true) :
    runMain w =
      diarizeStage w tr (some tr)
        (requestCount (transcribeAudio (transcribeEnvOf w))) := by
  simp [runMain, hpath, hkey, hnone, hok, hwrite]

/-- C1: when the cache file exists, a validated run issues zero transcription
requests and passes the cache file's exact content to diarization. -/
theorem claim_C1 (w : World) (data : String)
    (hpath : w.audioPath ≠ "") (hkey : w.apiKey ≠ "")
    (hfile : w.transcriptionFile = some data)
    (hread : w.cacheReadOk = true) :
    (runMain w).transcriptionRequests = 0 ∧
      (runMain w).transcriptUsed = some data := by
  rw [runMain_cached w data hpath hkey hfile hread]
  exact ⟨diarizeStage_tRequests w data (some data) 0,
    diarizeStage_used w data (some data) 0⟩

/-- A run with a pre-existing cache holding `cached text` and a successful
diarization endpoint, used by witnesses. -/
def cachedWorld : World :=
  { audioPath := "podcast.mp3", numSpeakers := 2, apiKey := "k"
    transcriptionFile := some "cached text", diarizedFile := some "old"
    cacheReadOk := true
    audioStat := none, audioOpenOk := false, audioCopyOk := false
    transcriptionResponse := none
    diarizationResponse :=
      some ⟨200, "",
        some (.obj [("choices",
          .arr [.obj [("message",
            .obj [("content", .str "Speaker 1: cached text")])]])])⟩
    cacheWriteOk := true, diarizedWriteOk := true }

/-- Witness for C1 on `cachedWorld`. -/
theorem claim_C1_witness :
    (runMain cachedWorld).transcriptionRequests = 0 ∧
      (runMain cachedWorld).transcriptUsed = some "cached text" :=
  claim_C1 cachedWorld "cached text" (by decide) (by decide) rfl rfl

/-- C6: a fully successful run writes `diarized.txt` with the literal header
line, a newline, the diarized text returned by `diarizeTranscript`, and a
trailing newline. -/
theorem claim_C6 (w : World) (t : String) (dresp : HttpResponse) (j : Json)
    (c : String) (rest : List String)
    (hreach : reachesDiarization w)
    (htr : transcriptAfterCacheStage w = some t)
    (hdresp : w.diarizationResponse = some dresp) (hst : dresp.status = 200)
    (hjson : dresp.bodyJson = some j)
    (hdec : decodeChatBody j = .ok (c :: rest))
    (hwrite : w.diarizedWriteOk = true) :
    (runMain w).exitCode = 0 ∧
      (runMain w).diarizedFile = some (diarizedHeader ++ c ++ "\n") := by
  obtain ⟨hpath, hkey, hcase⟩ := hreach
  have hdia : ∀ tt, (diarizeTranscript ⟨w.diarizationResponse⟩ tt
      w.numSpeakers).result = .ok c := fun tt => by
    rw [diarizeTranscript_ok ⟨w.diarizationResponse⟩ dresp j tt w.numSpeakers
      c rest hdresp hst hjson hdec]
  cases hfile : w.transcriptionFile with
  | some data =>
    simp only [hfile] at hcase
    have ht : t = data := by
      simp only [transcriptAfterCacheStage, hfile, Option.some.injEq] at htr
      exact htr.symm
    rw [runMain_cached w data hpath hkey hfile hcase,
      diarizeStage_success w data (some data) 0 c (hdia data) hwrite]
    exact ⟨rfl, rfl⟩
  | none =>
    simp only [hfile] at hcase
    obtain ⟨⟨tr, hok⟩, hcw⟩ := hcase
    rw [runMain_fresh w tr hpath hkey hfile hok hcw,
      diarizeStage_success w tr (some tr) _ c (hdia tr) hwrite]
    exact ⟨rfl, rfl⟩

/-- The cache-less fully mocked run of end-to-end scenario 1, used by
witnesses. -/
def scenario1World : World :=
  { audioPath := "podcast.mp3", numSpeakers := 2, apiKey := "k"
    transcriptionFile := none, diarizedFile := none, cacheReadOk := true
    audioStat := some ⟨100⟩, audioOpenOk := true, audioCopyOk := true
    transcriptionResponse :=
      some ⟨200, "", some (.obj [("text", .str "hello world")])⟩
    diarizationResponse :=
      some ⟨200, "",
        some (.obj [("choices",
          .arr [.obj [("message",
            .obj [("content", .str "Speaker 1: hello world")])]])])⟩
    cacheWriteOk := true, diarizedWriteOk := true }

/-- Witness for C6 on scenario 1. -/
theorem claim_C6_witness :
    (runMain scenario1World).exitCode = 0 ∧
      (runMain scenario1World).diarizedFile =
        some (diarizedHeader ++ "Speaker 1: hello world" ++ "\n") :=
  claim_C6 scenario1World "hello world"
    ⟨200, "",
      some (.obj [("choices",
        .arr [.obj [("message",
          .obj [("content", .str "Speaker 1: hello world")])]])])⟩
    (.obj [("choices",
      .arr [.obj [("message",
        .obj [("content", .str "Speaker 1: hello world")])]])])
    "Speaker 1: hello world" []
    ⟨by decide, by decide, ⟨"hello world", rfl⟩, rfl⟩
    rfl rfl rfl rfl rfl rfl

/-- C7: when the diarization call of a run that got past the cache stage
fails — with any of its error modes: transport failure, upstream non-200,
decode failure, or empty choices — the run exits with a non-zero status,
`diarized.txt` keeps its prior state, and `transcription.txt` keeps exactly
its post-cache-stage content — in particular a pre-existing cache file is
neither removed nor modified. -/
theorem claim_C7 (w : World) (t : String) (e : DiarizeError)
    (hreach : reachesDiarization w)
    (htr : transcriptAfterCacheStage w = some t)
    (hfail : (diarizeTranscript ⟨w.diarizationResponse⟩ t
      w.numSpeakers).result = .error e) :
    (runMain w).exitCode = 1 ∧
      (runMain w).diarizedFile = w.diarizedFile ∧
      (runMain w).transcriptionFile = transcriptAfterCacheStage w ∧
      (∀ d, w.transcriptionFile = some d →
        (runMain w).transcriptionFile = some d) := by
  obtain ⟨hpath, hkey, hcase⟩ := hreach
  cases hfile : w.transcriptionFile with
  | some data =>
    simp only [hfile] at hcase
    have ht : data = t := by
      simp only [transcriptAfterCacheStage, hfile, Option.some.injEq] at htr
      exact htr
    subst ht
    rw [runMain_cached w data hpath hkey hfile hcase,
      diarizeStage_err w data (some data) 0 e hfail]
    refine ⟨rfl, rfl, ?_, ?_⟩
    · simp [transcriptAfterCacheStage, hfile]
    · intro d hd
      cases hd
      rfl
  | none =>
    simp only [hfile] at hcase
    obtain ⟨⟨tr, hok⟩, hcw⟩ := hcase
    have ht : tr = t := by
      simp only [transcriptAfterCacheStage, hfile, hok, Option.some.injEq]
        at htr
      exact htr
    subst ht
    rw [runMain_fresh w tr hpath hkey hfile hok hcw,
      diarizeStage_err w tr (some tr) _ e hfail]
    refine ⟨rfl, rfl, ?_, ?_⟩
    · simp [transcriptAfterCacheStage, hfile, hok]
    · intro d hd
      exact Option.noConfusion hd

/-- The cached run of end-to-end scenario 4: the diarization endpoint
answers 429. -/
def throttledWorld : World :=
  { cachedWorld with
    diarizationResponse := some ⟨429, "Too Many Requests", none⟩ }

/-- A cached run whose diarization request fails at the transport level:
no response at all. -/
def droppedWorld : World :=
  { cachedWorld with diarizationResponse := none }

/-- Witness for C7, on scenario 4 (upstream 429) and on a transport failure
of the diarization request. -/
theorem claim_C7_witness :
    ((runMain throttledWorld).exitCode = 1 ∧
      (runMain throttledWorld).diarizedFile = throttledWorld.diarizedFile ∧
      (runMain throttledWorld).transcriptionFile = some "cached text") ∧
    ((runMain droppedWorld).exitCode = 1 ∧
      (runMain droppedWorld).diarizedFile = droppedWorld.diarizedFile ∧
      (runMain droppedWorld).transcriptionFile = some "cached text") :=
  have h1 := claim_C7 throttledWorld "cached text"
    (.upstream 429 (truncatedBody "Too Many Requests"))
    ⟨by decide, by decide, rfl⟩ rfl rfl
  have h2 := claim_C7 droppedWorld "cached text" .networkError
    ⟨by decide, by decide, rfl⟩ rfl rfl
  ⟨⟨h1.1, h1.2.1, h1.2.2.2 "cached text" rfl⟩,
    ⟨h2.1, h2.2.1, h2.2.2.2 "cached text" rfl⟩⟩

/-- C10: the cache decision is purely presence-based: a fresh transcription
returning the empty string still writes an empty `transcription.txt` and
diarizes the empty transcript, and any later run that sees that empty file
issues zero transcription requests. -/
theorem claim_C10 (w : World) (fi : FileInfo) (resp : HttpResponse) (j : Json)
    (hpath : w.audioPath ≠ "") (hkey : w.apiKey ≠ "")
    (hnone : w.transcriptionFile = none)
    (hstat : w.audioStat = some fi)
    (hsize : ¬ fi.size > config.maxAudioFileSize)
    (hopen : w.audioOpenOk = true) (hcopy : w.audioCopyOk = true)
    (hresp : w.transcriptionResponse = some resp) (hst : resp.status = 200)
    (hjson : resp.bodyJson = some j)
    (hdec : decodeTranscriptionBody j = .ok "")
    (hwrite : w.cacheWriteOk = true) :
    (runMain w).transcriptionFile = some "" ∧
      (runMain w).transcriptUsed = some "" ∧
      (∀ w' : World, w'.transcriptionFile = some "" → w'.audioPath ≠ "" →
        w'.apiKey ≠ "" → (runMain w').transcriptionRequests = 0) := by
  have hok : (transcribeAudio (transcribeEnvOf w)).result = .ok "" := by
    rw [transcribeAudio_ok (transcribeEnvOf w) fi resp j "" hstat hsize hopen
      hcopy hresp hst hjson hdec]
  rw [runMain_fresh w "" hpath hkey hnone hok hwrite]
  refine ⟨diarizeStage_cacheAfter w "" (some "") _,
    diarizeStage_used w "" (some "") _, ?_⟩
  intro w' hfile' hpath' hkey'
  cases hread : w'.cacheReadOk with
  | true =>
    rw [runMain_cached w' "" hpath' hkey' hfile' hread]
    exact diarizeStage_tRequests w' "" (some "") 0
  | false =>
    simp [runMain, hpath', hkey', hfile', hread]

/-- A cache-less run whose transcription response is an object without a
`text` field, so the fresh transcript is empty. -/
def emptyTranscriptWorld : World :=
  { scenario1World with
    transcriptionResponse := some ⟨200, "", some (.obj [("id", .str "x")])⟩ }

/-- Witness for C10: the empty transcript is cached and diarized, and the
follow-up run with the empty cache present issues no transcription request. -/
theorem claim_C10_witness :
    (runMain emptyTranscriptWorld).transcriptionFile = some "" ∧
      (runMain emptyTranscriptWorld).transcriptUsed = some "" ∧
      (runMain { emptyTranscriptWorld with
        transcriptionFile := some "" }).transcriptionRequests = 0 :=
  have h := claim_C10 emptyTranscriptWorld ⟨100⟩
    ⟨200, "", some (.obj [("id", .str "x")])⟩ (.obj [("id", .str "x")])
    (by decide) (by decide) rfl rfl (by decide) rfl rfl rfl rfl rfl rfl rfl
  ⟨h.1, h.2.1,
    h.2.2 { emptyTranscriptWorld with transcriptionFile := some "" } rfl
      (by decide) (by decide)⟩

end PodcastDiarize
